import Mathlib

/-!
Shallow embedding of the state-management core of `src/index.tsx`
(Tradutor Jurídico).  The React component's `useState` fields, together
with the `localStorage` key `translationHistory`, form the state; each
event handler becomes a pure state-transition function.  Calls to the
external generative-model collaborator are suspension points whose result
is passed in as an explicit outcome value, so a handler is a function of
(outcome, nondeterministic clock value, state).  The counter fields
`translateCalls` and `seedCalls` are instrumentation recording how many
times the corresponding collaborator call was issued; no other field
departs from the source.
-/

namespace TradutorJuridico

/-- `type View = 'home' | 'result'` (src/index.tsx line 6). -/
inductive View where
  | home
  | result
deriving DecidableEq, Repr

/-- `type Jurimetrics` (src/index.tsx lines 7-12).  `probabilityOfSuccess`
is a JS number; the claims only move it around, so `Int` suffices. -/
structure Jurimetrics where
  probabilityOfSuccess : Int
  estimatedDuration : String
  positiveFactors : List String
  negativeFactors : List String
deriving DecidableEq, Repr

/-- `type TranslationResult` (src/index.tsx lines 13-20). -/
structure TranslationResult where
  id : String
  timestamp : Nat
  translation : String
  summaryPoints : List String
  originalText : String
  jurimetrics : Jurimetrics
deriving DecidableEq, Repr

/-- Message role: `'user' | 'model'` (src/index.tsx line 22). -/
inductive Role where
  | user
  | model
deriving DecidableEq, Repr

/-- `type ChatMessage` (src/index.tsx lines 21-24). -/
structure ChatMessage where
  role : Role
  text : String
deriving DecidableEq, Repr

/-- What the durable `localStorage` key `translationHistory` holds, as far
as `JSON.parse` is concerned: either content deserializing to a list of
results, or content whose parse throws (corrupt). -/
inductive StorageContent where
  | good (entries : List TranslationResult)
  | corrupt
deriving DecidableEq, Repr

/-- The conversational context created by `ai.chats.create`
(src/index.tsx lines 163-168): its system instruction embeds
`result?.originalText` and `result?.translation` (optional because
`result` may be null when interpolated). -/
structure ChatSession where
  systemOriginal : Option String
  systemTranslation : Option String
deriving DecidableEq, Repr

/-- The component state of `App` (src/index.tsx lines 29-51) plus the
durable storage cell and two instrumentation counters.  `chatRef = none`
models `chatRef.current = null`; `storage = none` models an absent
`localStorage` entry. -/
structure AppState where
  view : View
  inputText : String
  isLoading : Bool
  error : String
  result : Option TranslationResult
  translationHistory : List TranslationResult
  isChatOpen : Bool
  chatHistory : List ChatMessage
  chatInput : String
  chatRef : Option ChatSession
  storage : Option StorageContent
  translateCalls : Nat
  seedCalls : Nat
deriving DecidableEq, Repr

/-- JavaScript `String.prototype.trim`: strip leading and trailing
whitespace.  Written over the character list so that it reduces in the
kernel; the exact whitespace set differs between JS and `Char.isWhitespace`
only on exotic characters no claim touches. -/
def jsTrim (s : String) : String :=
  String.mk
    (((s.data.dropWhile Char.isWhitespace).reverse.dropWhile
        Char.isWhitespace).reverse)

/-- Error message set by `handleTranslate` on empty input
(src/index.tsx line 85). -/
def emptyInputError : String := "Por favor, insira um texto para traduzir."

/-- Error message set by `handleTranslate` when the collaborator call or
the parse fails (src/index.tsx line 146). -/
def translateFailError : String :=
  "Ocorreu um erro ao traduzir o texto. Tente novamente."

/-- Fallback model message appended when chat opening fails
(src/index.tsx line 175). -/
def chatOpenFallback : ChatMessage :=
  ⟨Role.model, "Desculpe, não consegui iniciar o chat. Tente novamente."⟩

/-- Fallback model message appended when a chat send fails
(src/index.tsx line 199). -/
def chatSendFallback : ChatMessage :=
  ⟨Role.model, "Desculpe, não consegui processar sua pergunta. Tente novamente."⟩

/-- The content fields of the structured collaborator response that
`JSON.parse` yields on the success path (src/index.tsx line 128): spread
into the new result before `originalText`, `id`, `timestamp` are
assigned (lines 129-134). -/
structure TranslationContent where
  translation : String
  summaryPoints : List String
  jurimetrics : Jurimetrics
deriving DecidableEq, Repr

/-- Outcome of the awaited `ai.models.generateContent` call plus the
`JSON.parse` of its text: a well-formed parsed content, or any thrown
failure (network, malformed response, parse error — the catch at
src/index.tsx line 144 does not distinguish them). -/
inductive TranslateOutcome where
  | ok (content : TranslationContent)
  | fail
deriving DecidableEq, Repr

/-- Outcome of the chat-open try block (src/index.tsx lines 162-175):
`ai.chats.create` throws, or creation succeeds and the seed
`sendMessage` throws, or both succeed with reply text `t`. -/
inductive OpenOutcome where
  | createFail
  | seedFail
  | ok (text : String)
deriving DecidableEq, Repr

/-- Outcome of the awaited `chatRef.current.sendMessage` call inside
`handleSendMessage` (src/index.tsx lines 193-200). -/
inductive SendOutcome where
  | ok (text : String)
  | fail
deriving DecidableEq, Repr

/-- The startup effect (src/index.tsx lines 54-64): read the stored
history; if present and `JSON.parse` succeeds, install it; if the parse
throws, log and remove the durable entry (history untouched). -/
def loadHistoryEffect (s : AppState) : AppState :=
  match s.storage with
  | none => s
  | some (StorageContent.good entries) => { s with translationHistory := entries }
  | some StorageContent.corrupt => { s with storage := none }

/-- The state `App` starts from (src/index.tsx lines 29-51): every
`useState` initial value, with the durable storage cell holding whatever
the browser kept from earlier runs. -/
def initialState (stored : Option StorageContent) : AppState :=
  { view := View.home
    inputText := ""
    isLoading := false
    error := ""
    result := none
    translationHistory := []
    isChatOpen := false
    chatHistory := []
    chatInput := ""
    chatRef := none
    storage := stored
    translateCalls := 0
    seedCalls := 0 }

/-- `handleGoHome` (src/index.tsx lines 73-81).  Note the source comment:
`inputText` is deliberately not cleared. -/
def handleGoHome (s : AppState) : AppState :=
  { s with
    view := View.home
    result := none
    chatHistory := []
    error := ""
    isChatOpen := false
    chatRef := none }

/-- `handleTranslate` (src/index.tsx lines 83-150), run to completion:
empty trimmed input sets the validation message and returns before the
collaborator is invoked; otherwise the call is issued (counter bump) and
on success the new result (with `originalText`, `id`, `timestamp`
assigned from the input and the clock) is set, prepended to the history
truncated at 50, the full list is written to storage, and the view moves
to `result`; on failure only the generic error is set.  `finally` clears
`isLoading` on both paths. -/
def handleTranslate (outcome : TranslateOutcome) (now : Nat) (s : AppState) :
    AppState :=
  if jsTrim s.inputText = "" then
    { s with error := emptyInputError }
  else
    match outcome with
    | TranslateOutcome.ok content =>
      let newResult : TranslationResult :=
        { id := toString now
          timestamp := now
          translation := content.translation
          summaryPoints := content.summaryPoints
          originalText := s.inputText
          jurimetrics := content.jurimetrics }
      let updatedHistory := (newResult :: s.translationHistory).take 50
      { s with
        isLoading := false
        error := ""
        result := some newResult
        translationHistory := updatedHistory
        storage := some (StorageContent.good updatedHistory)
        view := View.result
        translateCalls := s.translateCalls + 1 }
    | TranslateOutcome.fail =>
      { s with
        isLoading := false
        error := translateFailError
        result := none
        translateCalls := s.translateCalls + 1 }

/-- `handleStartChat` (src/index.tsx lines 152-179), run to completion.
`isChatOpen` is set first; if a session exists and the chat history is
non-empty the handler returns there.  Otherwise the chat history is
reset and the try block runs: if `ai.chats.create` throws, `chatRef` is
left as it was and the fallback is appended; if creation succeeds, the
session (context from the current result) is installed and the seed
prompt is sent (counter bump), the reply or the fallback becoming the
single seeded message.  `finally` clears `isLoading`. -/
def handleStartChat (outcome : OpenOutcome) (s : AppState) : AppState :=
  let s₁ := { s with isChatOpen := true }
  if s₁.chatRef ≠ none ∧ s₁.chatHistory.length > 0 then
    s₁
  else
    let session : ChatSession :=
      { systemOriginal := s₁.result.map TranslationResult.originalText
        systemTranslation := s₁.result.map TranslationResult.translation }
    match outcome with
    | OpenOutcome.createFail =>
      { s₁ with isLoading := false, chatHistory := [chatOpenFallback] }
    | OpenOutcome.seedFail =>
      { s₁ with
        isLoading := false
        chatRef := some session
        seedCalls := s₁.seedCalls + 1
        chatHistory := [chatOpenFallback] }
    | OpenOutcome.ok t =>
      { s₁ with
        isLoading := false
        chatRef := some session
        seedCalls := s₁.seedCalls + 1
        chatHistory := [⟨Role.model, t⟩] }

/-- `handleCloseChat` (src/index.tsx line 181): only the open flag is
cleared; session and messages survive. -/
def handleCloseChat (s : AppState) : AppState :=
  { s with isChatOpen := false }

/-- `setChatInput` as exposed through `onChatInputChange`
(src/index.tsx lines 286 and 610): the user typing into the chat box. -/
def setChatInput (t : String) (s : AppState) : AppState :=
  { s with chatInput := t }

/-- `setInputText` as exposed through `onInputChange`
(src/index.tsx lines 295 and 334): the user typing into the main box. -/
def setInputText (t : String) (s : AppState) : AppState :=
  { s with inputText := t }

/-- `handleSendMessage` (src/index.tsx lines 183-204), run to
completion: guarded on non-blank input, not loading, and an existing
session; appends the user message optimistically, clears the input, then
appends the model reply or the fallback.  `finally` clears
`isLoading`. -/
def handleSendMessage (outcome : SendOutcome) (s : AppState) : AppState :=
  if jsTrim s.chatInput = "" ∨ s.isLoading = true ∨ s.chatRef = none then
    s
  else
    let userMessage : ChatMessage := ⟨Role.user, s.chatInput⟩
    match outcome with
    | SendOutcome.ok t =>
      { s with
        chatHistory := s.chatHistory ++ [userMessage, ⟨Role.model, t⟩]
        chatInput := ""
        isLoading := false }
    | SendOutcome.fail =>
      { s with
        chatHistory := s.chatHistory ++ [userMessage, chatSendFallback]
        chatInput := ""
        isLoading := false }

/-- `handleClearHistory` (src/index.tsx lines 260-263). -/
def handleClearHistory (s : AppState) : AppState :=
  { s with translationHistory := [], storage := none }

/-- `handleViewHistoryItem` (src/index.tsx lines 265-272). -/
def handleViewHistoryItem (item : TranslationResult) (s : AppState) :
    AppState :=
  { s with
    result := some item
    isChatOpen := false
    chatHistory := []
    chatRef := none
    view := View.result }

/-- One user interaction leading to a successful translation: the text
typed into the box, the clock value at completion, and the content the
collaborator returned. -/
structure TranslateCall where
  input : String
  now : Nat
  content : TranslationContent
deriving DecidableEq, Repr

/-- The `TranslationResult` a successful `handleTranslate` builds for a
call (src/index.tsx lines 129-134). -/
def mkResult (c : TranslateCall) : TranslationResult :=
  { id := toString c.now
    timestamp := c.now
    translation := c.content.translation
    summaryPoints := c.content.summaryPoints
    originalText := c.input
    jurimetrics := c.content.jurimetrics }

/-- A sequence of successful translate interactions: for each call in
order, type the input then run `handleTranslate` with a well-formed
response. -/
def runTranslates : List TranslateCall → AppState → AppState
  | [], s => s
  | c :: cs, s =>
      runTranslates cs
        (handleTranslate (TranslateOutcome.ok c.content) c.now
          (setInputText c.input s))

/-- A concrete well-formed collaborator response, used by witnesses. -/
def sampleContent : TranslationContent :=
  { translation := "Tradução simples."
    summaryPoints := ["ponto um"]
    jurimetrics :=
      { probabilityOfSuccess := 70
        estimatedDuration := "6-12 meses"
        positiveFactors := ["fator positivo"]
        negativeFactors := ["fator negativo"] } }

/-- A concrete successful translate interaction, used by witnesses. -/
def sampleCall : TranslateCall :=
  { input := "Vistos.", now := 1, content := sampleContent }

/-- A concrete translation result, used by witnesses. -/
def sampleResult : TranslationResult :=
  mkResult sampleCall

/-- A concrete state sitting on the result view, used by witnesses. -/
def sampleResultState : AppState :=
  { initialState none with
    view := View.result
    result := some sampleResult }

/-- Claim C7: from any state on the result view, `goHome` moves the view
to home, clears the current result, clears the pending error, destroys
the active chat session (messages and context discarded), and leaves the
pending input text unchanged. -/
theorem goHome_contract (s : AppState) (_h : s.view = View.result) :
    (handleGoHome s).view = View.home ∧
    (handleGoHome s).result = none ∧
    (handleGoHome s).error = "" ∧
    (handleGoHome s).chatRef = none ∧
    (handleGoHome s).chatHistory = [] ∧
    (handleGoHome s).isChatOpen = false ∧
    (handleGoHome s).inputText = s.inputText :=
  ⟨rfl, rfl, rfl, rfl, rfl, rfl, rfl⟩

/-- Witness for C7 at a concrete result-view state. -/
theorem goHome_contract_witness :
    sampleResultState.view = View.result ∧
    ((handleGoHome sampleResultState).view = View.home ∧
     (handleGoHome sampleResultState).result = none ∧
     (handleGoHome sampleResultState).error = "" ∧
     (handleGoHome sampleResultState).chatRef = none ∧
     (handleGoHome sampleResultState).chatHistory = [] ∧
     (handleGoHome sampleResultState).isChatOpen = false ∧
     (handleGoHome sampleResultState).inputText = sampleResultState.inputText) :=
  ⟨rfl, goHome_contract sampleResultState rfl⟩

/-- Claim C9: `viewHistoryItem` leaves the pending error message
unchanged (unlike `goHome`), sets the current result to the item,
destroys any active chat session, and transitions the view to result. -/
theorem viewHistoryItem_contract (s : AppState) (item : TranslationResult) :
    (handleViewHistoryItem item s).error = s.error ∧
    (handleViewHistoryItem item s).result = some item ∧
    (handleViewHistoryItem item s).chatRef = none ∧
    (handleViewHistoryItem item s).chatHistory = [] ∧
    (handleViewHistoryItem item s).isChatOpen = false ∧
    (handleViewHistoryItem item s).view = View.result :=
  ⟨rfl, rfl, rfl, rfl, rfl, rfl⟩

/-- Claim C8: on startup, corrupt durable content is discarded entirely
(history starts empty, no partial recovery), the corrupt durable entry
is removed, and no error is surfaced; deserializable content becomes the
initial history. -/
theorem load_contract (entries : List TranslationResult) :
    (loadHistoryEffect (initialState (some StorageContent.corrupt))).translationHistory = [] ∧
    (loadHistoryEffect (initialState (some StorageContent.corrupt))).storage = none ∧
    (loadHistoryEffect (initialState (some StorageContent.corrupt))).error = "" ∧
    (loadHistoryEffect (initialState (some (StorageContent.good entries)))).translationHistory = entries ∧
    (loadHistoryEffect (initialState (some (StorageContent.good entries)))).error = "" :=
  ⟨rfl, rfl, rfl, rfl, rfl⟩

/-- Claim C10: `translate` clears the current result before invoking the
collaborator, so a failed translate from a state holding a result leaves
no current result — the prior result is discarded, not restored. -/
theorem translate_failure_discards_result (s : AppState)
    (r : TranslationResult) (_hres : s.result = some r)
    (hin : jsTrim s.inputText ≠ "") (now : Nat) :
    (handleTranslate TranslateOutcome.fail now s).result = none := by
  unfold handleTranslate
  rw [if_neg hin]

/-- Witness for C10 at a concrete state holding a previous result. -/
theorem translate_failure_discards_result_witness :
    (setInputText "Vistos." sampleResultState).result = some sampleResult ∧
    jsTrim (setInputText "Vistos." sampleResultState).inputText ≠ "" ∧
    (handleTranslate TranslateOutcome.fail 2
        (setInputText "Vistos." sampleResultState)).result = none :=
  ⟨by decide, by decide,
    translate_failure_discards_result (setInputText "Vistos." sampleResultState)
      sampleResult (by decide) (by decide) 2⟩

/-- Claim C2: for every input with non-blank trimmed form and a
well-formed collaborator response, translate succeeds: the produced
result carries `originalText` exactly equal to the submitted input
(verbatim, untrimmed) and freshly assigned `id` and `timestamp`; it is
set as the current result, prepended to the history store, and the view
transitions to result. -/
theorem translate_success_contract (s : AppState) (c : TranslationContent)
    (now : Nat) (hin : jsTrim s.inputText ≠ "") :
    (handleTranslate (TranslateOutcome.ok c) now s).result
        = some (mkResult ⟨s.inputText, now, c⟩) ∧
    (mkResult ⟨s.inputText, now, c⟩).originalText = s.inputText ∧
    (mkResult ⟨s.inputText, now, c⟩).id = toString now ∧
    (mkResult ⟨s.inputText, now, c⟩).timestamp = now ∧
    (handleTranslate (TranslateOutcome.ok c) now s).translationHistory
        = (mkResult ⟨s.inputText, now, c⟩ :: s.translationHistory).take 50 ∧
    (handleTranslate (TranslateOutcome.ok c) now s).view = View.result := by
  unfold handleTranslate
  rw [if_neg hin]
  exact ⟨rfl, rfl, rfl, rfl, rfl, rfl⟩

/-- Witness for C2 at a concrete non-blank input. -/
theorem translate_success_contract_witness :
    jsTrim (setInputText "Vistos." (initialState none)).inputText ≠ "" ∧
    ((handleTranslate (TranslateOutcome.ok sampleContent) 3
        (setInputText "Vistos." (initialState none))).result
        = some (mkResult ⟨(setInputText "Vistos." (initialState none)).inputText, 3, sampleContent⟩) ∧
     (mkResult ⟨(setInputText "Vistos." (initialState none)).inputText, 3, sampleContent⟩).originalText
        = (setInputText "Vistos." (initialState none)).inputText ∧
     (mkResult ⟨(setInputText "Vistos." (initialState none)).inputText, 3, sampleContent⟩).id
        = toString 3 ∧
     (mkResult ⟨(setInputText "Vistos." (initialState none)).inputText, 3, sampleContent⟩).timestamp
        = 3 ∧
     (handleTranslate (TranslateOutcome.ok sampleContent) 3
        (setInputText "Vistos." (initialState none))).translationHistory
        = (mkResult ⟨(setInputText "Vistos." (initialState none)).inputText, 3, sampleContent⟩
            :: (setInputText "Vistos." (initialState none)).translationHistory).take 50 ∧
     (handleTranslate (TranslateOutcome.ok sampleContent) 3
        (setInputText "Vistos." (initialState none))).view = View.result) :=
  ⟨by decide,
    translate_success_contract (setInputText "Vistos." (initialState none))
      sampleContent 3 (by decide)⟩

/-- Claim C3: translate's error contract.  Blank trimmed input sets the
validation message and changes nothing else — in particular the
collaborator is not invoked (call counter unchanged).  For non-blank
input, any collaborator failure surfaces as the single generic
translation error, stores no partial result in the history (history and
durable storage unchanged), and the busy flag ends cleared on both the
failure and the success path. -/
theorem translate_error_contract (s : AppState) (now : Nat) :
    (∀ o : TranslateOutcome, jsTrim s.inputText = "" →
      handleTranslate o now s = { s with error := emptyInputError } ∧
      (handleTranslate o now s).translateCalls = s.translateCalls) ∧
    (jsTrim s.inputText ≠ "" →
      (handleTranslate TranslateOutcome.fail now s).error = translateFailError ∧
      (handleTranslate TranslateOutcome.fail now s).translationHistory
          = s.translationHistory ∧
      (handleTranslate TranslateOutcome.fail now s).storage = s.storage ∧
      (handleTranslate TranslateOutcome.fail now s).result = none ∧
      (handleTranslate TranslateOutcome.fail now s).isLoading = false ∧
      ∀ c : TranslationContent,
        (handleTranslate (TranslateOutcome.ok c) now s).isLoading = false) := by
  constructor
  · intro o hblank
    unfold handleTranslate
    rw [if_pos hblank]
    exact ⟨rfl, rfl⟩
  · intro hin
    simp [handleTranslate, if_neg hin]

/-- Witness for C3: the blank branch at the start state (empty input)
and the non-blank branch at a concrete input. -/
theorem translate_error_contract_witness :
    (jsTrim (initialState none).inputText = "" ∧
     handleTranslate TranslateOutcome.fail 4 (initialState none)
        = { initialState none with error := emptyInputError }) ∧
    (jsTrim (setInputText "Vistos." (initialState none)).inputText ≠ "" ∧
     (handleTranslate TranslateOutcome.fail 4
        (setInputText "Vistos." (initialState none))).error = translateFailError) :=
  ⟨⟨by decide,
    ((translate_error_contract (initialState none) 4).1
      TranslateOutcome.fail (by decide)).1⟩,
   ⟨by decide,
    ((translate_error_contract (setInputText "Vistos." (initialState none)) 4).2
      (by decide)).1⟩⟩

/-- Helper: opening the chat from a state with no session runs the full
branch; the post-state for the `createFail` outcome. -/
theorem startChat_fresh_createFail (s : AppState) (hfresh : s.chatRef = none) :
    handleStartChat OpenOutcome.createFail s
      = { s with
          isChatOpen := true
          isLoading := false
          chatHistory := [chatOpenFallback] } := by
  unfold handleStartChat
  rw [if_neg]
  intro hcon
  exact hcon.1 hfresh

/-- Helper: the post-state of a fresh chat open for the `seedFail`
outcome. -/
theorem startChat_fresh_seedFail (s : AppState) (hfresh : s.chatRef = none) :
    handleStartChat OpenOutcome.seedFail s
      = { s with
          isChatOpen := true
          isLoading := false
          chatRef := some
            (ChatSession.mk (s.result.map TranslationResult.originalText)
              (s.result.map TranslationResult.translation))
          seedCalls := s.seedCalls + 1
          chatHistory := [chatOpenFallback] } := by
  unfold handleStartChat
  rw [if_neg]
  intro hcon
  exact hcon.1 hfresh

/-- Helper: the post-state of a fresh chat open for the success
outcome. -/
theorem startChat_fresh_ok (t : String) (s : AppState)
    (hfresh : s.chatRef = none) :
    handleStartChat (OpenOutcome.ok t) s
      = { s with
          isChatOpen := true
          isLoading := false
          chatRef := some
            (ChatSession.mk (s.result.map TranslationResult.originalText)
              (s.result.map TranslationResult.translation))
          seedCalls := s.seedCalls + 1
          chatHistory := [⟨Role.model, t⟩] } := by
  unfold handleStartChat
  rw [if_neg]
  intro hcon
  exact hcon.1 hfresh

/-- Helper: opening the chat when a session exists and messages are
non-empty only raises the open flag (early return, no collaborator
call). -/
theorem startChat_existing (o : OpenOutcome) (s : AppState)
    (href : s.chatRef ≠ none) (hmsg : s.chatHistory ≠ []) :
    handleStartChat o s = { s with isChatOpen := true } := by
  unfold handleStartChat
  rw [if_pos ⟨href, List.length_pos.mpr hmsg⟩]

/-- Helper: a send whose guard passes appends the user message and one
model message (reply or fallback), clears busy, and keeps the
session. -/
theorem sendMessage_step (o : SendOutcome) (s : AppState)
    (hin : jsTrim s.chatInput ≠ "") (hload : s.isLoading = false)
    (href : s.chatRef ≠ none) :
    (handleSendMessage o s).chatHistory.length = s.chatHistory.length + 2 ∧
    (handleSendMessage o s).isLoading = false ∧
    (handleSendMessage o s).chatRef = s.chatRef := by
  have hguard : ¬(jsTrim s.chatInput = "" ∨ s.isLoading = true ∨
      s.chatRef = none) := by
    push_neg
    exact ⟨hin, by simp [hload], href⟩
  cases o with
  | ok t =>
    unfold handleSendMessage
    rw [if_neg hguard]
    exact ⟨by simp, rfl, rfl⟩
  | fail =>
    unfold handleSendMessage
    rw [if_neg hguard]
    exact ⟨by simp, rfl, rfl⟩

/-- Claim C4 counterexample: from a fresh result view (no session yet),
an open whose session creation fails does append the fallback message,
but leaves no session behind, and a subsequent send attempt (non-blank
input, collaborator ready to answer) is a no-op — send is not possible,
so the opened "session" is not usable. -/
theorem chatOpen_createFail_blocks_send :
    (handleStartChat OpenOutcome.createFail sampleResultState).chatHistory
        = [chatOpenFallback] ∧
    (handleStartChat OpenOutcome.createFail sampleResultState).chatRef = none ∧
    handleSendMessage (SendOutcome.ok "resposta")
        (setChatInput "Oi"
          (handleStartChat OpenOutcome.createFail sampleResultState))
      = setChatInput "Oi"
          (handleStartChat OpenOutcome.createFail sampleResultState) := by
  decide

/-- Claim C4 (amended): from a state with no existing session, any
failure during chat open appends exactly the single apologetic
model-role fallback message instead of failing the open.  If the
failure hits the seed prompt (the session object was already created),
the session is usable: any later send with non-blank input goes through
and grows the messages by two.  If session creation itself fails, no
session is installed and every send attempt is a no-op until a
successful open. -/
theorem chatOpen_failure_fallback (s : AppState) (hfresh : s.chatRef = none) :
    (handleStartChat OpenOutcome.createFail s).chatHistory
        = [chatOpenFallback] ∧
    (handleStartChat OpenOutcome.seedFail s).chatHistory
        = [chatOpenFallback] ∧
    (handleStartChat OpenOutcome.seedFail s).chatRef ≠ none ∧
    (∀ t o, jsTrim t ≠ "" →
      (handleSendMessage o
          (setChatInput t (handleStartChat OpenOutcome.seedFail s))).chatHistory.length
        = (handleStartChat OpenOutcome.seedFail s).chatHistory.length + 2) ∧
    (∀ t o,
      handleSendMessage o
          (setChatInput t (handleStartChat OpenOutcome.createFail s))
        = setChatInput t (handleStartChat OpenOutcome.createFail s)) := by
  refine ⟨?_, ?_, ?_, ?_, ?_⟩
  · rw [startChat_fresh_createFail s hfresh]
  · rw [startChat_fresh_seedFail s hfresh]
  · rw [startChat_fresh_seedFail s hfresh]
    simp
  · intro t o ht
    have hload2 :
        (setChatInput t (handleStartChat OpenOutcome.seedFail s)).isLoading
          = false := by
      rw [startChat_fresh_seedFail s hfresh]
      rfl
    have href2 :
        (setChatInput t (handleStartChat OpenOutcome.seedFail s)).chatRef
          ≠ none := by
      rw [startChat_fresh_seedFail s hfresh]
      simp [setChatInput]
    exact (sendMessage_step o _ ht hload2 href2).1
  · intro t o
    have hnone :
        (setChatInput t (handleStartChat OpenOutcome.createFail s)).chatRef
          = none := by
      rw [startChat_fresh_createFail s hfresh]
      simp [setChatInput, hfresh]
    unfold handleSendMessage
    rw [if_pos (Or.inr (Or.inr hnone))]

/-- Witness for the amended C4 at a concrete fresh result-view state. -/
theorem chatOpen_failure_fallback_witness :
    sampleResultState.chatRef = none ∧
    ((handleStartChat OpenOutcome.createFail sampleResultState).chatHistory
        = [chatOpenFallback] ∧
     (handleStartChat OpenOutcome.seedFail sampleResultState).chatHistory
        = [chatOpenFallback] ∧
     (handleStartChat OpenOutcome.seedFail sampleResultState).chatRef ≠ none ∧
     (∀ t o, jsTrim t ≠ "" →
       (handleSendMessage o
           (setChatInput t
             (handleStartChat OpenOutcome.seedFail sampleResultState))).chatHistory.length
         = (handleStartChat OpenOutcome.seedFail sampleResultState).chatHistory.length + 2) ∧
     (∀ t o,
       handleSendMessage o
           (setChatInput t (handleStartChat OpenOutcome.createFail sampleResultState))
         = setChatInput t
             (handleStartChat OpenOutcome.createFail sampleResultState))) :=
  ⟨rfl, chatOpen_failure_fallback sampleResultState rfl⟩

/-- Claim C5: chat open is idempotent.  After a successful open from a
state with no session, a second open (whatever the collaborator would
have answered) is the identity: the seed prompt was sent exactly once,
and the messages are neither re-seeded nor reset. -/
theorem chatOpen_idempotent (s : AppState) (t : String) (o : OpenOutcome)
    (hfresh : s.chatRef = none) :
    handleStartChat o (handleStartChat (OpenOutcome.ok t) s)
        = handleStartChat (OpenOutcome.ok t) s ∧
    (handleStartChat (OpenOutcome.ok t) s).seedCalls = s.seedCalls + 1 ∧
    (handleStartChat o (handleStartChat (OpenOutcome.ok t) s)).seedCalls
        = s.seedCalls + 1 ∧
    (handleStartChat o (handleStartChat (OpenOutcome.ok t) s)).chatHistory
        = (handleStartChat (OpenOutcome.ok t) s).chatHistory := by
  have h1 := startChat_fresh_ok t s hfresh
  have h2 : handleStartChat o (handleStartChat (OpenOutcome.ok t) s)
      = handleStartChat (OpenOutcome.ok t) s := by
    rw [h1, startChat_existing o _ (by simp) (by simp)]
  refine ⟨h2, ?_, ?_, ?_⟩
  · rw [h1]
  · rw [h2, h1]
  · rw [h2]

/-- Witness for C5 at a concrete fresh result-view state. -/
theorem chatOpen_idempotent_witness :
    sampleResultState.chatRef = none ∧
    (handleStartChat OpenOutcome.seedFail
        (handleStartChat (OpenOutcome.ok "Olá!") sampleResultState)
        = handleStartChat (OpenOutcome.ok "Olá!") sampleResultState ∧
     (handleStartChat (OpenOutcome.ok "Olá!") sampleResultState).seedCalls
        = sampleResultState.seedCalls + 1 ∧
     (handleStartChat OpenOutcome.seedFail
        (handleStartChat (OpenOutcome.ok "Olá!") sampleResultState)).seedCalls
        = sampleResultState.seedCalls + 1 ∧
     (handleStartChat OpenOutcome.seedFail
        (handleStartChat (OpenOutcome.ok "Olá!") sampleResultState)).chatHistory
        = (handleStartChat (OpenOutcome.ok "Olá!") sampleResultState).chatHistory) :=
  ⟨rfl, chatOpen_idempotent sampleResultState "Olá!" OpenOutcome.seedFail rfl⟩

/-- Claim C6: with an active session and non-blank message text, a send
whose collaborator call fails keeps the optimistically appended
user-role message, appends exactly one fallback model-role message (so
messages grow by exactly two), clears busy, keeps the session, and does
not block further sends: any later send with non-blank input grows the
messages by two again. -/
theorem chatSend_failure_contract (s : AppState)
    (hin : jsTrim s.chatInput ≠ "") (hload : s.isLoading = false)
    (href : s.chatRef ≠ none) :
    (handleSendMessage SendOutcome.fail s).chatHistory
        = s.chatHistory ++ [⟨Role.user, s.chatInput⟩, chatSendFallback] ∧
    (handleSendMessage SendOutcome.fail s).chatHistory.length
        = s.chatHistory.length + 2 ∧
    (handleSendMessage SendOutcome.fail s).isLoading = false ∧
    (handleSendMessage SendOutcome.fail s).chatRef = s.chatRef ∧
    (∀ t o, jsTrim t ≠ "" →
      (handleSendMessage o
          (setChatInput t (handleSendMessage SendOutcome.fail s))).chatHistory.length
        = s.chatHistory.length + 4) := by
  obtain ⟨hlen, hld, hrf⟩ := sendMessage_step SendOutcome.fail s hin hload href
  have hguard : ¬(jsTrim s.chatInput = "" ∨ s.isLoading = true ∨
      s.chatRef = none) := by
    push_neg
    exact ⟨hin, by simp [hload], href⟩
  refine ⟨?_, hlen, hld, hrf, ?_⟩
  · unfold handleSendMessage
    rw [if_neg hguard]
  · intro t o ht
    have hload2 :
        (setChatInput t (handleSendMessage SendOutcome.fail s)).isLoading
          = false := hld
    have href2 :
        (setChatInput t (handleSendMessage SendOutcome.fail s)).chatRef
          ≠ none := by
      show (handleSendMessage SendOutcome.fail s).chatRef ≠ none
      rw [hrf]
      exact href
    have hlen2 := (sendMessage_step o
      (setChatInput t (handleSendMessage SendOutcome.fail s)) ht hload2 href2).1
    have hhist :
        (setChatInput t (handleSendMessage SendOutcome.fail s)).chatHistory.length
          = s.chatHistory.length + 2 := hlen
    omega

/-- Witness for C6 at a concrete state with an open session. -/
theorem chatSend_failure_contract_witness :
    jsTrim (setChatInput "Oi"
        (handleStartChat (OpenOutcome.ok "Olá!") sampleResultState)).chatInput ≠ "" ∧
    (setChatInput "Oi"
        (handleStartChat (OpenOutcome.ok "Olá!") sampleResultState)).isLoading = false ∧
    (setChatInput "Oi"
        (handleStartChat (OpenOutcome.ok "Olá!") sampleResultState)).chatRef ≠ none ∧
    (handleSendMessage SendOutcome.fail
        (setChatInput "Oi"
          (handleStartChat (OpenOutcome.ok "Olá!") sampleResultState))).chatHistory
      = (setChatInput "Oi"
          (handleStartChat (OpenOutcome.ok "Olá!") sampleResultState)).chatHistory
        ++ [⟨Role.user,
              (setChatInput "Oi"
                (handleStartChat (OpenOutcome.ok "Olá!") sampleResultState)).chatInput⟩,
            chatSendFallback] :=
  ⟨by decide, by decide, by decide,
    (chatSend_failure_contract
      (setChatInput "Oi" (handleStartChat (OpenOutcome.ok "Olá!") sampleResultState))
      (by decide) (by decide) (by decide)).1⟩

/-- Helper: truncating the right operand of an append before truncating
the whole append changes nothing. -/
theorem take_append_take {α : Type} (n : Nat) (l m : List α) :
    (l ++ m.take n).take n = (l ++ m).take n := by
  rw [List.take_append_eq_append_take, List.take_append_eq_append_take,
    List.take_take]
  rw [Nat.min_eq_left (Nat.sub_le n l.length)]

/-- Helper: the post-state of one successful translate interaction. -/
theorem translate_ok_step (c : TranslateCall) (s : AppState)
    (hin : jsTrim c.input ≠ "") :
    handleTranslate (TranslateOutcome.ok c.content) c.now
        (setInputText c.input s)
      = { s with
          inputText := c.input
          isLoading := false
          error := ""
          result := some (mkResult c)
          translationHistory := (mkResult c :: s.translationHistory).take 50
          storage := some
            (StorageContent.good ((mkResult c :: s.translationHistory).take 50))
          view := View.result
          translateCalls := s.translateCalls + 1 } := by
  unfold handleTranslate setInputText mkResult
  rw [if_neg hin]

/-- Helper: the in-memory history after a run of successful translates
is the reversed sequence of new results in front of the old history,
truncated to 50. -/
theorem runTranslates_history (calls : List TranslateCall) (s : AppState)
    (hvalid : ∀ c ∈ calls, jsTrim c.input ≠ "")
    (hlen : s.translationHistory.length ≤ 50) :
    (runTranslates calls s).translationHistory
      = ((calls.map mkResult).reverse ++ s.translationHistory).take 50 := by
  induction calls generalizing s with
  | nil =>
    simp [runTranslates, List.take_of_length_le hlen]
  | cons c cs ih =>
    have hc : jsTrim c.input ≠ "" := hvalid c (List.mem_cons_self c cs)
    have hcs : ∀ x ∈ cs, jsTrim x.input ≠ "" :=
      fun x hx => hvalid x (List.mem_cons_of_mem c hx)
    rw [runTranslates, translate_ok_step c s hc]
    rw [ih _ hcs (List.length_take_le 50 _)]
    show ((cs.map mkResult).reverse
        ++ (mkResult c :: s.translationHistory).take 50).take 50
      = (((c :: cs).map mkResult).reverse ++ s.translationHistory).take 50
    rw [take_append_take]
    simp [List.append_assoc]

/-- Helper: every successful translate rewrites durable storage with the
exact in-memory history, so the match is invariant over a run. -/
theorem runTranslates_storage (calls : List TranslateCall) (s : AppState)
    (hvalid : ∀ c ∈ calls, jsTrim c.input ≠ "")
    (hstore : s.storage = some (StorageContent.good s.translationHistory)) :
    (runTranslates calls s).storage
      = some (StorageContent.good (runTranslates calls s).translationHistory) := by
  induction calls generalizing s with
  | nil => exact hstore
  | cons c cs ih =>
    have hc : jsTrim c.input ≠ "" := hvalid c (List.mem_cons_self c cs)
    have hcs : ∀ x ∈ cs, jsTrim x.input ≠ "" :=
      fun x hx => hvalid x (List.mem_cons_of_mem c hx)
    rw [runTranslates, translate_ok_step c s hc]
    exact ih _ hcs rfl

/-- Claim C1: history store invariants over any run of successful
translates from a state satisfying the store invariant (length at most
50, durable copy equal to memory): the resulting history is the new
results most-recent-first in front of the old ones truncated to 50
(prepend-and-truncate), its length stays at most 50, durable storage
equals the in-memory sequence exactly, and after at least 50 successful
translations the store holds exactly the 50 most recent results,
most-recent-first. -/
theorem history_invariants (calls : List TranslateCall) (s : AppState)
    (hvalid : ∀ c ∈ calls, jsTrim c.input ≠ "")
    (hlen : s.translationHistory.length ≤ 50)
    (hstore : s.storage = some (StorageContent.good s.translationHistory)) :
    (runTranslates calls s).translationHistory
        = ((calls.map mkResult).reverse ++ s.translationHistory).take 50 ∧
    (runTranslates calls s).translationHistory.length ≤ 50 ∧
    (runTranslates calls s).storage
        = some (StorageContent.good (runTranslates calls s).translationHistory) ∧
    (50 ≤ calls.length →
      (runTranslates calls s).translationHistory
          = (calls.map mkResult).reverse.take 50 ∧
      (runTranslates calls s).translationHistory.length = 50) := by
  have hchar := runTranslates_history calls s hvalid hlen
  refine ⟨hchar, ?_, runTranslates_storage calls s hvalid hstore, ?_⟩
  · rw [hchar]
    exact List.length_take_le 50 _
  · intro hN
    have hrevlen : 50 ≤ ((calls.map mkResult).reverse).length := by
      rw [List.length_reverse, List.length_map]
      exact hN
    refine ⟨?_, ?_⟩
    · rw [hchar, List.take_append_of_le_length hrevlen]
    · rw [hchar, List.length_take, Nat.min_eq_left]
      rw [List.length_append]
      omega

/-- Witness for C1 with one concrete successful translation from the
freshly loaded empty store. -/
theorem history_invariants_witness :
    (∀ c ∈ [sampleCall], jsTrim c.input ≠ "") ∧
    (initialState (some (StorageContent.good []))).translationHistory.length ≤ 50 ∧
    (initialState (some (StorageContent.good []))).storage
        = some (StorageContent.good
            (initialState (some (StorageContent.good []))).translationHistory) ∧
    ((runTranslates [sampleCall]
          (initialState (some (StorageContent.good [])))).translationHistory
        = (([sampleCall].map mkResult).reverse
            ++ (initialState (some (StorageContent.good []))).translationHistory).take 50 ∧
     (runTranslates [sampleCall]
          (initialState (some (StorageContent.good [])))).translationHistory.length ≤ 50 ∧
     (runTranslates [sampleCall]
          (initialState (some (StorageContent.good [])))).storage
        = some (StorageContent.good
            (runTranslates [sampleCall]
              (initialState (some (StorageContent.good [])))).translationHistory) ∧
     (50 ≤ [sampleCall].length →
       (runTranslates [sampleCall]
            (initialState (some (StorageContent.good [])))).translationHistory
           = ([sampleCall].map mkResult).reverse.take 50 ∧
       (runTranslates [sampleCall]
            (initialState (some (StorageContent.good [])))).translationHistory.length
           = 50)) :=
  ⟨by decide, by decide, by decide,
    history_invariants [sampleCall] (initialState (some (StorageContent.good [])))
      (by decide) (by decide) (by decide)⟩

end TradutorJuridico
